import Mathlib

/-!
Shallow embedding of `src/assets/js/platformer2/Player.js` (class `Player`).

Positions, speeds and screen measurements are JS numbers; they are modelled
as rationals (`ℚ`).  The decimal literals of the source are written as the
corresponding fractions (`.80` = `4/5`, `.50` = `1/2`, `.40` = `2/5`,
`.30` = `3/10`, `.15` = `3/20`, `0.4` = `2/5`, `0.1` = `1/10`,
`0.5` = `1/2`).

Side effects outside the player object (audio calls, `setTimeout`
scheduling, the awaited `GameControl.transitionToLevel`) are made explicit
as counters on the `World` record; the DOM canvas style writes
(`transform`, `filter`) are recorded as fields.
-/

namespace Platformer

/-- `this.movement = {up: true, down: true, left: true, right: true}` -/
structure Movement where
  up : Bool
  down : Bool
  left : Bool
  right : Bool
deriving Repr, DecidableEq

/-- `animation.idleFrame` sub-object: `{column, frames}`. -/
structure IdleFrame where
  column : Nat
  frames : Nat
deriving Repr, DecidableEq

/-- An animation descriptor from `playerData`: `{row, frames, idleFrame?}`. -/
structure Animation where
  row : Nat
  frames : Nat
  idleFrame : Option IdleFrame
deriving Repr, DecidableEq

/-- `this.playerData`: the per-key animation-descriptor table, plus the
sprite-width fields `w`, `wa`, `wd` mutated by `setAnimation`. -/
structure PlayerData where
  keys : List (String × Animation)
  w : ℚ
  wa : ℚ
  wd : ℚ
deriving Repr, DecidableEq

/-- `playerData.hasOwnProperty(key)` / `playerData[key]` lookup. -/
def PlayerData.lookup (d : PlayerData) (key : String) : Option Animation :=
  (d.keys.find? (fun kv => kv.1 = key)).map (·.2)

/-- `this.collisionData.touchPoints.other`. -/
structure TouchOther where
  id : String
  left : Bool
  right : Bool
  bottom : Bool
  x : ℚ
deriving Repr, DecidableEq

/-- `this.collisionData.touchPoints.this` (only `.top` is read). -/
structure TouchSelf where
  top : Bool
deriving Repr, DecidableEq

/-- One collision event's touch-point record. -/
structure CollisionData where
  other : TouchOther
  self : TouchSelf
deriving Repr, DecidableEq

/-- The mutable state of one `Player` object, together with the base-class
fields (`x`, `y`, `speed`, `bottom`, `canvas`, frame selection) it reads
and writes. -/
structure PlayerState where
  x : ℚ
  y : ℚ
  speed : ℚ
  moveSpeed : ℚ
  bottom : ℚ
  canvasHeight : ℚ
  playerData : PlayerData
  pressedKeys : List String
  movement : Movement
  isIdle : Bool
  directionKey : String
  gravityEnabled : Bool
  isDying : Bool
  frameY : Nat
  maxFrame : Nat
  frameX : Nat
  minFrame : Nat
  canvasTransform : Option (ℚ × ℚ)
  canvasFilter : String
deriving Repr, DecidableEq

/-- The `GameEnv` fields this class reads and writes. -/
structure GameEnvState where
  invincible : Bool
  difficulty : String
  innerWidth : ℚ
  backgroundHillsSpeed : ℚ
  backgroundMountainsSpeed : ℚ
  playerX : ℚ
  playerY : ℚ
  transitionHide : Bool
deriving Repr, DecidableEq

/-- Player plus environment plus externally visible effects: sounds played
(`playJump`, `playPlayerDeath` calls), death-restart timers scheduled by
`collisionAction`, level transitions completed by those timers, and tube
timers scheduled by the tube-bottom branch. -/
structure World where
  env : GameEnvState
  player : PlayerState
  jumpSounds : Nat
  deathSounds : Nat
  scheduledRestarts : Nat
  completedTransitions : Nat
  tubeTimers : Nat
deriving Repr, DecidableEq

/-- `isKeyActionLeft(key) { return key === "a"; }` -/
def isKeyActionLeft (key : String) : Bool := key = "a"

/-- `isKeyActionRight(key) { return key === "d"; }` -/
def isKeyActionRight (key : String) : Bool := key = "d"

/-- `isKeyActionDash(key) { return key === "s"; }` -/
def isKeyActionDash (key : String) : Bool := key = "s"

/-- `isActiveAnimation(key) { return (key in this.pressedKeys) && !this.isIdle; }` -/
def isActiveAnimation (p : PlayerState) (key : String) : Bool :=
  decide (key ∈ p.pressedKeys) && !p.isIdle

/-- `setAnimation(key)`: direction bookkeeping then frame selection.
(When `key` is missing from `playerData` the JS would dereference
`undefined`; the method is only ever invoked with recognized keys, and the
model leaves the state unchanged in that unreachable case.) -/
def setAnimation (p : PlayerState) (key : String) : PlayerState :=
  match p.playerData.lookup key with
  | none => p
  | some animation =>
    let p :=
      if isKeyActionLeft key then
        { p with directionKey := key, playerData.w := p.playerData.wa }
      else if isKeyActionRight key then
        { p with directionKey := key, playerData.w := p.playerData.wd }
      else p
    let p := { p with frameY := animation.row, maxFrame := animation.frames }
    if p.isIdle then
      match animation.idleFrame with
      | some idle => { p with frameX := idle.column, minFrame := idle.frames }
      | none => p
    else p

/-- `isActiveGravityAnimation(key)`: returns the boolean result and the
state after the `setAnimation(this.directionKey)` side effect. -/
def isActiveGravityAnimation (p : PlayerState) (key : String) :
    Bool × PlayerState :=
  let result := isActiveAnimation p key &&
    (decide (p.bottom ≤ p.y) || decide (p.movement.down = false))
  let p :=
    if p.bottom ≤ p.y ∨ p.movement.down = false then
      setAnimation p p.directionKey
    else p
  (result, p)

/-- `update()` lines 117-118: publish position to `GameEnv.PlayerPosition`. -/
def publishPosition (w : World) : World :=
  { w with env := { w.env with playerX := w.player.x, playerY := w.player.y } }

/-- `update()` lines 121-129: lateral movement (left, right, dash). -/
def lateralStep (p : PlayerState) : PlayerState :=
  let p :=
    if isActiveAnimation p "a" then
      if p.movement.left then
        { p with x := p.x - (if isActiveAnimation p "s" then p.moveSpeed else p.speed) }
      else p
    else p
  let p :=
    if isActiveAnimation p "d" then
      if p.movement.right then
        { p with x := p.x + (if isActiveAnimation p "s" then p.moveSpeed else p.speed) }
      else p
    else p
  p

/-- `update()` lines 132-145: the jump trigger (`playJump` counted in
`jumpSounds`, then the difficulty-scaled instantaneous jump). -/
def jumpStep (w : World) : World :=
  let r := isActiveGravityAnimation w.player "w"
  let p := r.2
  if r.1 then
    let p :=
      if p.gravityEnabled then
        if w.env.difficulty = "easy" then { p with y := p.y - p.bottom * (1/2) }
        else if w.env.difficulty = "normal" then { p with y := p.y - p.bottom * (2/5) }
        else { p with y := p.y - p.bottom * (3/10) }
      else if p.movement.down = false then { p with y := p.y - p.bottom * (3/20) }
      else p
    { w with player := p, jumpSounds := w.jumpSounds + 1 }
  else { w with player := p }

/-- `update()` lines 148-151: the tube clamp
(`tubeX = .80 * GameEnv.innerWidth`). -/
def tubeClampStep (w : World) : World :=
  let tubeX := (4/5 : ℚ) * w.env.innerWidth
  if (4/5 : ℚ) * w.env.innerWidth ≤ w.player.x ∧ w.player.x ≤ w.env.innerWidth then
    { w with player := { w.player with x := tubeX - 1 } }
  else w

/-- `update()` lines 154-159: the left-screen-edge clamp. -/
def leftClampStep (w : World) : World :=
  if w.player.x < 0 then
    { w with
      player := { w.player with x := 1 },
      env := { w.env with backgroundHillsSpeed := 0, backgroundMountainsSpeed := 0 } }
  else w

/-- `update()` lines 117-145: position publication, lateral movement and
the jump trigger — the state just before the two boundary clamps. -/
def updateMoved (w : World) : World :=
  let w := publishPosition w
  let w := { w with player := lateralStep w.player }
  jumpStep w

/-- `update()`: the player-specific part of the per-frame update, in source
order, stopping at the `super.update()` delegation. -/
def update (w : World) : World :=
  leftClampStep (tubeClampStep (updateMoved w))

/-- `collisionAction()` lines 190-215: the tube branch and its `else`. -/
def tubeCollisionStep (w : World) (cd : CollisionData) : World :=
  if cd.other.id = "tube" then
    let p := w.player
    let p := if cd.other.left then { p with movement.right := false } else p
    let p := if cd.other.right then { p with movement.left := false } else p
    if cd.other.bottom then
      { w with
        player := { p with x := cd.other.x, gravityEnabled := false },
        tubeTimers := w.tubeTimers + 1 }
    else { w with player := p }
  else
    { w with player := { w.player with movement.left := true, movement.right := true } }

/-- `collisionAction()` lines 218-242: the goomba / flyingGoomba branch.
The guard of the lethal branch is the assignment `GameEnv.invincible = true`
(always truthy), so evaluating it stores `true` into the environment and
then takes the branch. A restart timer is scheduled only when
`isDying === false`, and scheduling it sets `isDying = true`. -/
def enemyCollisionStep (w : World) (cd : CollisionData) : World :=
  if cd.other.id = "goomba" ∨ cd.other.id = "flyingGoomba" then
    let direction : ℚ := if cd.other.left then -1 else 1
    if w.env.difficulty = "easy" then
      { w with player := { w.player with x := w.player.x + 10 * direction } }
    else
      let w := { w with env := { w.env with invincible := true } }
      let rotate := 90 * direction
      let translate := w.player.canvasHeight * (1/2) * direction
      let w :=
        { w with
          player := { w.player with canvasTransform := some (rotate, translate) },
          deathSounds := w.deathSounds + 1 }
      if w.player.isDying = false then
        { w with
          player := { w.player with isDying := true },
          scheduledRestarts := w.scheduledRestarts + 1 }
      else w
  else w

/-- `collisionAction()` lines 243-267: the jumpPlatform branch and the
fall-off-the-edge `else if`. -/
def platformCollisionStep (w : World) (cd : CollisionData) : World :=
  if cd.other.id = "jumpPlatform" then
    let p := w.player
    let p :=
      if cd.other.left then { p with movement.right := false, gravityEnabled := true }
      else p
    let p :=
      if cd.other.right then { p with movement.left := false, gravityEnabled := true }
      else p
    let p :=
      if cd.self.top then
        setAnimation { p with movement.down := false, gravityEnabled := false }
          p.directionKey
      else p
    { w with player := p }
  else if w.player.movement.down = false then
    { w with player := { w.player with movement.down := true, gravityEnabled := true } }
  else w

/-- `collisionAction()`: the three source blocks in order. -/
def collisionAction (w : World) (cd : CollisionData) : World :=
  platformCollisionStep (enemyCollisionStep (tubeCollisionStep w cd) cd) cd

/-- `handleKeyDown(event)`. -/
def handleKeyDown (w : World) (key : String) : World :=
  match w.player.playerData.lookup key with
  | none => w
  | some _ =>
    let p := w.player
    let st :=
      if key ∈ p.pressedKeys then (p, w.env)
      else
        let p := { p with pressedKeys := p.pressedKeys ++ [key] }
        let p := setAnimation p key
        let p := { p with isIdle := false }
        (p, { w.env with transitionHide := true })
    let p := st.1
    let env := st.2
    let p := if isKeyActionDash key then { p with canvasFilter := "invert(1)" } else p
    let env :=
      if isKeyActionLeft key ∧ 2 < p.x then
        { env with backgroundHillsSpeed := -(2/5), backgroundMountainsSpeed := -(1/10) }
      else if isKeyActionRight key then
        { env with backgroundHillsSpeed := 2/5, backgroundMountainsSpeed := 1/10 }
      else env
    { w with player := p, env := env }

/-- `handleKeyUp(event)`. -/
def handleKeyUp (w : World) (key : String) : World :=
  match w.player.playerData.lookup key with
  | none => w
  | some _ =>
    let p := w.player
    let p := { p with pressedKeys := p.pressedKeys.erase key }
    let p := setAnimation p key
    let p := { p with isIdle := true }
    let p := if isKeyActionDash key then { p with canvasFilter := "invert(0)" } else p
    let env :=
      if isKeyActionLeft key ∨ isKeyActionRight key ∨ isKeyActionDash key then
        { w.env with backgroundHillsSpeed := 0, backgroundMountainsSpeed := 0 }
      else w.env
    { w with player := p, env := env }

/-- The constructor's player-control initialization (lines 20-47): base
fields from `Character` are taken as parameters; `GameEnv.invincible` is
set to `false`; `moveSpeed = this.speed * 3`; empty key latch; all
movement permitted; idle; facing right (`"d"`); not dying. -/
def constructPlayer (env : GameEnvState) (data : PlayerData)
    (x y speed bottom canvasHeight : ℚ) (gravityEnabled : Bool) : World :=
  { env := { env with invincible := false }
    player :=
      { x := x, y := y, speed := speed, moveSpeed := speed * 3,
        bottom := bottom, canvasHeight := canvasHeight, playerData := data,
        pressedKeys := [], movement := ⟨true, true, true, true⟩,
        isIdle := true, directionKey := "d",
        gravityEnabled := gravityEnabled, isDying := false,
        frameY := 0, maxFrame := 0, frameX := 0, minFrame := 0,
        canvasTransform := none, canvasFilter := "" }
    jumpSounds := 0, deathSounds := 0, scheduledRestarts := 0,
    completedTransitions := 0, tubeTimers := 0 }

/-- Host event-loop events: a collision notification, or the firing of a
scheduled death timer (whose callback awaits
`GameControl.transitionToLevel` and then clears `isDying`). -/
inductive Event where
  | collide (cd : CollisionData)
  | deathTimerComplete
deriving Repr, DecidableEq

/-- One event-loop step. A pending death timer, when it fires, first
completes the awaited level transition and only then clears `isDying`,
exactly as the `setTimeout(async () => { await ...; this.isDying = false })`
callback does. -/
def stepEvent (w : World) : Event → World
  | .collide cd => collisionAction w cd
  | .deathTimerComplete =>
    if w.completedTransitions < w.scheduledRestarts then
      { w with
        completedTransitions := w.completedTransitions + 1,
        player := { w.player with isDying := false } }
    else w

/-- Death-sequence potential: scheduled restarts plus one pending credit
when no death sequence is in flight.  `collisionAction` preserves it
exactly; a completing death timer releases the credit. -/
def restartPotential (w : World) : Nat :=
  w.scheduledRestarts + (if w.player.isDying = true then 0 else 1)

/-! ### Concrete sample data (used by the closed evaluation theorems) -/

/-- A minimal animation descriptor. -/
def animBasic : Animation :=
  { row := 1, frames := 4, idleFrame := some { column := 0, frames := 1 } }

/-- A `playerData` table with the four WASD-style action keys. -/
def sampleData : PlayerData :=
  { keys := [("a", animBasic), ("d", animBasic), ("s", animBasic), ("w", animBasic)],
    w := 10, wa := 11, wd := 12 }

/-- A sample environment: normal difficulty, 1000-pixel screen. -/
def sampleEnv : GameEnvState :=
  { invincible := false, difficulty := "normal", innerWidth := 1000,
    backgroundHillsSpeed := 0, backgroundMountainsSpeed := 0,
    playerX := 0, playerY := 0, transitionHide := false }

/-- A freshly constructed player at `x = 100`, `y = 50`, `speed = 3`,
`bottom = 40`, canvas height `200`, gravity on. -/
def baseWorld : World :=
  constructPlayer sampleEnv sampleData 100 50 3 40 200 true

/-- `baseWorld` on easy difficulty. -/
def easyWorld : World :=
  { baseWorld with env := { baseWorld.env with difficulty := "easy" } }

/-- Easy difficulty with the up-action key latched while grounded. -/
def jumpWorld : World :=
  { easyWorld with
    player := { easyWorld.player with pressedKeys := ["w"], isIdle := false } }

/-- Direction key and dash key both latched. -/
def dashPlayer : PlayerState :=
  { baseWorld.player with pressedKeys := ["d", "s"], isIdle := false }

/-- Direction key latched without dash. -/
def walkPlayer : PlayerState :=
  { baseWorld.player with pressedKeys := ["d"], isIdle := false }

/-- `baseWorld` moved into the tube-clamp band `[800, 1000]`. -/
def clampWorld : World :=
  { baseWorld with player := { baseWorld.player with x := 850 } }

/-- A degenerate 1-pixel-wide screen with the player in the clamp band. -/
def tinyWorld : World :=
  { baseWorld with
    env := { baseWorld.env with innerWidth := 1 },
    player := { baseWorld.player with x := 9/10 } }

/-- `baseWorld` while standing on a one-way platform. -/
def platformWorld : World :=
  { baseWorld with
    player :=
      { baseWorld.player with
        movement := { up := true, down := false, left := true, right := true },
        gravityEnabled := false } }

/-- `baseWorld` mid death sequence: one restart scheduled, none completed. -/
def dyingWorld : World :=
  { baseWorld with
    player := { baseWorld.player with isDying := true },
    scheduledRestarts := 1 }

/-- `baseWorld` near the left screen edge (`x = 1`). -/
def leftEdgeWorld : World :=
  { baseWorld with player := { baseWorld.player with x := 1 } }

/-- A goomba touch-point record whose left face is not the contact side. -/
def goombaCd : CollisionData :=
  { other := { id := "goomba", left := false, right := true, bottom := false, x := 0 },
    self := { top := false } }

/-- A jump-platform touch-point record with the player's top face touching. -/
def platformTopCd : CollisionData :=
  { other := { id := "jumpPlatform", left := false, right := false, bottom := false, x := 0 },
    self := { top := true } }

/-- A touch-point record matching no jump-platform condition. -/
def floorCd : CollisionData :=
  { other := { id := "floor", left := false, right := false, bottom := false, x := 0 },
    self := { top := false } }

/-! ### Field-preservation lemmas for `setAnimation` -/

@[simp] theorem setAnimation_x (p : PlayerState) (k : String) :
    (setAnimation p k).x = p.x := by
  unfold setAnimation
  split
  · rfl
  · dsimp only
    repeat' split
    all_goals rfl

@[simp] theorem setAnimation_y (p : PlayerState) (k : String) :
    (setAnimation p k).y = p.y := by
  unfold setAnimation
  split
  · rfl
  · dsimp only
    repeat' split
    all_goals rfl

@[simp] theorem setAnimation_speed (p : PlayerState) (k : String) :
    (setAnimation p k).speed = p.speed := by
  unfold setAnimation
  split
  · rfl
  · dsimp only
    repeat' split
    all_goals rfl

@[simp] theorem setAnimation_moveSpeed (p : PlayerState) (k : String) :
    (setAnimation p k).moveSpeed = p.moveSpeed := by
  unfold setAnimation
  split
  · rfl
  · dsimp only
    repeat' split
    all_goals rfl

@[simp] theorem setAnimation_bottom (p : PlayerState) (k : String) :
    (setAnimation p k).bottom = p.bottom := by
  unfold setAnimation
  split
  · rfl
  · dsimp only
    repeat' split
    all_goals rfl

@[simp] theorem setAnimation_canvasHeight (p : PlayerState) (k : String) :
    (setAnimation p k).canvasHeight = p.canvasHeight := by
  unfold setAnimation
  split
  · rfl
  · dsimp only
    repeat' split
    all_goals rfl

@[simp] theorem setAnimation_pressedKeys (p : PlayerState) (k : String) :
    (setAnimation p k).pressedKeys = p.pressedKeys := by
  unfold setAnimation
  split
  · rfl
  · dsimp only
    repeat' split
    all_goals rfl

@[simp] theorem setAnimation_movement (p : PlayerState) (k : String) :
    (setAnimation p k).movement = p.movement := by
  unfold setAnimation
  split
  · rfl
  · dsimp only
    repeat' split
    all_goals rfl

@[simp] theorem setAnimation_isIdle (p : PlayerState) (k : String) :
    (setAnimation p k).isIdle = p.isIdle := by
  unfold setAnimation
  split
  · rfl
  · dsimp only
    repeat' split
    all_goals rfl

@[simp] theorem setAnimation_gravityEnabled (p : PlayerState) (k : String) :
    (setAnimation p k).gravityEnabled = p.gravityEnabled := by
  unfold setAnimation
  split
  · rfl
  · dsimp only
    repeat' split
    all_goals rfl

@[simp] theorem setAnimation_isDying (p : PlayerState) (k : String) :
    (setAnimation p k).isDying = p.isDying := by
  unfold setAnimation
  split
  · rfl
  · dsimp only
    repeat' split
    all_goals rfl

@[simp] theorem setAnimation_canvasTransform (p : PlayerState) (k : String) :
    (setAnimation p k).canvasTransform = p.canvasTransform := by
  unfold setAnimation
  split
  · rfl
  · dsimp only
    repeat' split
    all_goals rfl

/-! ### Field-preservation lemmas for the `update` phases -/

@[simp] theorem publishPosition_player (w : World) :
    (publishPosition w).player = w.player := rfl

@[simp] theorem publishPosition_difficulty (w : World) :
    (publishPosition w).env.difficulty = w.env.difficulty := rfl

@[simp] theorem publishPosition_innerWidth (w : World) :
    (publishPosition w).env.innerWidth = w.env.innerWidth := rfl

@[simp] theorem lateralStep_y (p : PlayerState) : (lateralStep p).y = p.y := by
  unfold lateralStep
  dsimp only
  split_ifs <;> rfl

@[simp] theorem lateralStep_speed (p : PlayerState) :
    (lateralStep p).speed = p.speed := by
  unfold lateralStep
  dsimp only
  split_ifs <;> rfl

@[simp] theorem lateralStep_moveSpeed (p : PlayerState) :
    (lateralStep p).moveSpeed = p.moveSpeed := by
  unfold lateralStep
  dsimp only
  split_ifs <;> rfl

@[simp] theorem lateralStep_bottom (p : PlayerState) :
    (lateralStep p).bottom = p.bottom := by
  unfold lateralStep
  dsimp only
  split_ifs <;> rfl

@[simp] theorem lateralStep_pressedKeys (p : PlayerState) :
    (lateralStep p).pressedKeys = p.pressedKeys := by
  unfold lateralStep
  dsimp only
  split_ifs <;> rfl

@[simp] theorem lateralStep_movement (p : PlayerState) :
    (lateralStep p).movement = p.movement := by
  unfold lateralStep
  dsimp only
  split_ifs <;> rfl

@[simp] theorem lateralStep_isIdle (p : PlayerState) :
    (lateralStep p).isIdle = p.isIdle := by
  unfold lateralStep
  dsimp only
  split_ifs <;> rfl

@[simp] theorem lateralStep_gravityEnabled (p : PlayerState) :
    (lateralStep p).gravityEnabled = p.gravityEnabled := by
  unfold lateralStep
  dsimp only
  split_ifs <;> rfl

@[simp] theorem lateralStep_isDying (p : PlayerState) :
    (lateralStep p).isDying = p.isDying := by
  unfold lateralStep
  dsimp only
  split_ifs <;> rfl

@[simp] theorem isActiveGravityAnimation_fst (p : PlayerState) (k : String) :
    (isActiveGravityAnimation p k).1 =
      (isActiveAnimation p k &&
        (decide (p.bottom ≤ p.y) || decide (p.movement.down = false))) := rfl

@[simp] theorem isActiveGravityAnimation_snd_x (p : PlayerState) (k : String) :
    (isActiveGravityAnimation p k).2.x = p.x := by
  unfold isActiveGravityAnimation
  dsimp only
  split_ifs <;> simp

@[simp] theorem isActiveGravityAnimation_snd_y (p : PlayerState) (k : String) :
    (isActiveGravityAnimation p k).2.y = p.y := by
  unfold isActiveGravityAnimation
  dsimp only
  split_ifs <;> simp

@[simp] theorem isActiveGravityAnimation_snd_speed (p : PlayerState) (k : String) :
    (isActiveGravityAnimation p k).2.speed = p.speed := by
  unfold isActiveGravityAnimation
  dsimp only
  split_ifs <;> simp

@[simp] theorem isActiveGravityAnimation_snd_moveSpeed (p : PlayerState) (k : String) :
    (isActiveGravityAnimation p k).2.moveSpeed = p.moveSpeed := by
  unfold isActiveGravityAnimation
  dsimp only
  split_ifs <;> simp

@[simp] theorem isActiveGravityAnimation_snd_bottom (p : PlayerState) (k : String) :
    (isActiveGravityAnimation p k).2.bottom = p.bottom := by
  unfold isActiveGravityAnimation
  dsimp only
  split_ifs <;> simp

@[simp] theorem isActiveGravityAnimation_snd_movement (p : PlayerState) (k : String) :
    (isActiveGravityAnimation p k).2.movement = p.movement := by
  unfold isActiveGravityAnimation
  dsimp only
  split_ifs <;> simp

@[simp] theorem isActiveGravityAnimation_snd_gravityEnabled (p : PlayerState) (k : String) :
    (isActiveGravityAnimation p k).2.gravityEnabled = p.gravityEnabled := by
  unfold isActiveGravityAnimation
  dsimp only
  split_ifs <;> simp

@[simp] theorem isActiveGravityAnimation_snd_isDying (p : PlayerState) (k : String) :
    (isActiveGravityAnimation p k).2.isDying = p.isDying := by
  unfold isActiveGravityAnimation
  dsimp only
  split_ifs <;> simp

@[simp] theorem jumpStep_env (w : World) : (jumpStep w).env = w.env := by
  unfold jumpStep
  dsimp only
  split_ifs <;> rfl

@[simp] theorem jumpStep_x (w : World) : (jumpStep w).player.x = w.player.x := by
  unfold jumpStep
  dsimp only
  split_ifs <;> simp

@[simp] theorem jumpStep_moveSpeed (w : World) :
    (jumpStep w).player.moveSpeed = w.player.moveSpeed := by
  unfold jumpStep isActiveGravityAnimation
  dsimp only
  split_ifs <;> simp

@[simp] theorem jumpStep_speed (w : World) :
    (jumpStep w).player.speed = w.player.speed := by
  unfold jumpStep isActiveGravityAnimation
  dsimp only
  split_ifs <;> simp

@[simp] theorem tubeClampStep_env (w : World) : (tubeClampStep w).env = w.env := by
  unfold tubeClampStep
  dsimp only
  split_ifs <;> rfl

@[simp] theorem tubeClampStep_y (w : World) :
    (tubeClampStep w).player.y = w.player.y := by
  unfold tubeClampStep
  dsimp only
  split_ifs <;> rfl

@[simp] theorem tubeClampStep_moveSpeed (w : World) :
    (tubeClampStep w).player.moveSpeed = w.player.moveSpeed := by
  unfold tubeClampStep
  dsimp only
  split_ifs <;> rfl

@[simp] theorem tubeClampStep_speed (w : World) :
    (tubeClampStep w).player.speed = w.player.speed := by
  unfold tubeClampStep
  dsimp only
  split_ifs <;> rfl

@[simp] theorem leftClampStep_y (w : World) :
    (leftClampStep w).player.y = w.player.y := by
  unfold leftClampStep
  split_ifs <;> rfl

@[simp] theorem leftClampStep_moveSpeed (w : World) :
    (leftClampStep w).player.moveSpeed = w.player.moveSpeed := by
  unfold leftClampStep
  split_ifs <;> rfl

@[simp] theorem leftClampStep_speed (w : World) :
    (leftClampStep w).player.speed = w.player.speed := by
  unfold leftClampStep
  split_ifs <;> rfl

/-! ### Lemmas about the three `collisionAction` blocks -/

theorem tubeCollisionStep_not_tube (w : World) (cd : CollisionData)
    (h : cd.other.id ≠ "tube") :
    tubeCollisionStep w cd =
      { w with player := { w.player with movement.left := true, movement.right := true } } := by
  unfold tubeCollisionStep
  rw [if_neg h]

@[simp] theorem tubeCollisionStep_isDying (w : World) (cd : CollisionData) :
    (tubeCollisionStep w cd).player.isDying = w.player.isDying := by
  unfold tubeCollisionStep
  dsimp only
  split_ifs <;> rfl

@[simp] theorem tubeCollisionStep_movement_down (w : World) (cd : CollisionData) :
    (tubeCollisionStep w cd).player.movement.down = w.player.movement.down := by
  unfold tubeCollisionStep
  dsimp only
  split_ifs <;> rfl

@[simp] theorem tubeCollisionStep_moveSpeed (w : World) (cd : CollisionData) :
    (tubeCollisionStep w cd).player.moveSpeed = w.player.moveSpeed := by
  unfold tubeCollisionStep
  dsimp only
  split_ifs <;> rfl

@[simp] theorem tubeCollisionStep_canvasHeight (w : World) (cd : CollisionData) :
    (tubeCollisionStep w cd).player.canvasHeight = w.player.canvasHeight := by
  unfold tubeCollisionStep
  dsimp only
  split_ifs <;> rfl

@[simp] theorem tubeCollisionStep_canvasTransform (w : World) (cd : CollisionData) :
    (tubeCollisionStep w cd).player.canvasTransform = w.player.canvasTransform := by
  unfold tubeCollisionStep
  dsimp only
  split_ifs <;> rfl

@[simp] theorem tubeCollisionStep_scheduledRestarts (w : World) (cd : CollisionData) :
    (tubeCollisionStep w cd).scheduledRestarts = w.scheduledRestarts := by
  unfold tubeCollisionStep
  dsimp only
  split_ifs <;> rfl

@[simp] theorem tubeCollisionStep_deathSounds (w : World) (cd : CollisionData) :
    (tubeCollisionStep w cd).deathSounds = w.deathSounds := by
  unfold tubeCollisionStep
  dsimp only
  split_ifs <;> rfl

@[simp] theorem tubeCollisionStep_invincible (w : World) (cd : CollisionData) :
    (tubeCollisionStep w cd).env.invincible = w.env.invincible := by
  unfold tubeCollisionStep
  dsimp only
  split_ifs <;> rfl

@[simp] theorem tubeCollisionStep_difficulty (w : World) (cd : CollisionData) :
    (tubeCollisionStep w cd).env.difficulty = w.env.difficulty := by
  unfold tubeCollisionStep
  dsimp only
  split_ifs <;> rfl

/-- On easy difficulty an enemy contact is a pure positional nudge:
`this.x += 10 * direction`. -/
theorem enemyCollisionStep_easy (w : World) (cd : CollisionData)
    (h1 : cd.other.id = "goomba" ∨ cd.other.id = "flyingGoomba")
    (h2 : w.env.difficulty = "easy") :
    enemyCollisionStep w cd =
      { w with player :=
          { w.player with x := w.player.x + 10 * (if cd.other.left then -1 else 1) } } := by
  unfold enemyCollisionStep
  rw [if_pos h1]
  dsimp only
  rw [if_pos h2]

/-- Non-easy enemy contact with `isDying === false`: invincible flag set by
the assignment-condition, transform and death sound applied, one restart
timer scheduled, `isDying` raised. -/
theorem enemyCollisionStep_lethal_fresh (w : World) (cd : CollisionData)
    (h1 : cd.other.id = "goomba" ∨ cd.other.id = "flyingGoomba")
    (h2 : w.env.difficulty ≠ "easy") (h3 : w.player.isDying = false) :
    enemyCollisionStep w cd =
      { w with
        env := { w.env with invincible := true },
        player :=
          { w.player with
            canvasTransform := some (90 * (if cd.other.left then -1 else 1),
              w.player.canvasHeight * (1/2) * (if cd.other.left then -1 else 1)),
            isDying := true },
        deathSounds := w.deathSounds + 1,
        scheduledRestarts := w.scheduledRestarts + 1 } := by
  unfold enemyCollisionStep
  rw [if_pos h1]
  dsimp only
  rw [if_neg h2]
  rw [if_pos h3]

/-- Non-easy enemy contact while `isDying === true`: same visual and audio
effects, but no further restart timer and `isDying` untouched. -/
theorem enemyCollisionStep_lethal_dying (w : World) (cd : CollisionData)
    (h1 : cd.other.id = "goomba" ∨ cd.other.id = "flyingGoomba")
    (h2 : w.env.difficulty ≠ "easy") (h3 : w.player.isDying = true) :
    enemyCollisionStep w cd =
      { w with
        env := { w.env with invincible := true },
        player :=
          { w.player with
            canvasTransform := some (90 * (if cd.other.left then -1 else 1),
              w.player.canvasHeight * (1/2) * (if cd.other.left then -1 else 1)) },
        deathSounds := w.deathSounds + 1 } := by
  unfold enemyCollisionStep
  rw [if_pos h1]
  dsimp only
  rw [if_neg h2]
  rw [if_neg (by simp [h3])]

theorem enemyCollisionStep_not_enemy (w : World) (cd : CollisionData)
    (h : ¬(cd.other.id = "goomba" ∨ cd.other.id = "flyingGoomba")) :
    enemyCollisionStep w cd = w := by
  unfold enemyCollisionStep
  rw [if_neg h]

@[simp] theorem enemyCollisionStep_movement (w : World) (cd : CollisionData) :
    (enemyCollisionStep w cd).player.movement = w.player.movement := by
  unfold enemyCollisionStep
  dsimp only
  split_ifs <;> rfl

@[simp] theorem enemyCollisionStep_moveSpeed (w : World) (cd : CollisionData) :
    (enemyCollisionStep w cd).player.moveSpeed = w.player.moveSpeed := by
  unfold enemyCollisionStep
  dsimp only
  split_ifs <;> rfl

@[simp] theorem enemyCollisionStep_difficulty (w : World) (cd : CollisionData) :
    (enemyCollisionStep w cd).env.difficulty = w.env.difficulty := by
  unfold enemyCollisionStep
  dsimp only
  split_ifs <;> rfl

/-- `collisionAction` can raise `isDying` but never clears it. -/
theorem enemyCollisionStep_isDying_mono (w : World) (cd : CollisionData)
    (h : w.player.isDying = true) :
    (enemyCollisionStep w cd).player.isDying = true := by
  unfold enemyCollisionStep
  dsimp only
  split_ifs <;> simp_all

@[simp] theorem platformCollisionStep_x (w : World) (cd : CollisionData) :
    (platformCollisionStep w cd).player.x = w.player.x := by
  unfold platformCollisionStep
  dsimp only
  split_ifs <;> simp

@[simp] theorem platformCollisionStep_isDying (w : World) (cd : CollisionData) :
    (platformCollisionStep w cd).player.isDying = w.player.isDying := by
  unfold platformCollisionStep
  dsimp only
  split_ifs <;> simp

@[simp] theorem platformCollisionStep_moveSpeed (w : World) (cd : CollisionData) :
    (platformCollisionStep w cd).player.moveSpeed = w.player.moveSpeed := by
  unfold platformCollisionStep
  dsimp only
  split_ifs <;> simp

@[simp] theorem platformCollisionStep_canvasTransform (w : World) (cd : CollisionData) :
    (platformCollisionStep w cd).player.canvasTransform = w.player.canvasTransform := by
  unfold platformCollisionStep
  dsimp only
  split_ifs <;> simp

@[simp] theorem platformCollisionStep_scheduledRestarts (w : World) (cd : CollisionData) :
    (platformCollisionStep w cd).scheduledRestarts = w.scheduledRestarts := by
  unfold platformCollisionStep
  dsimp only
  split_ifs <;> rfl

@[simp] theorem platformCollisionStep_deathSounds (w : World) (cd : CollisionData) :
    (platformCollisionStep w cd).deathSounds = w.deathSounds := by
  unfold platformCollisionStep
  dsimp only
  split_ifs <;> rfl

@[simp] theorem platformCollisionStep_env (w : World) (cd : CollisionData) :
    (platformCollisionStep w cd).env = w.env := by
  unfold platformCollisionStep
  dsimp only
  split_ifs <;> rfl

/-- Standing on top of a jump platform: `movement.down` cleared and gravity
disabled, whatever the side faces did first. -/
theorem platformCollisionStep_top (w : World) (cd : CollisionData)
    (h1 : cd.other.id = "jumpPlatform") (h2 : cd.self.top = true) :
    (platformCollisionStep w cd).player.movement.down = false ∧
      (platformCollisionStep w cd).player.gravityEnabled = false := by
  unfold platformCollisionStep
  rw [if_pos h1]
  dsimp only
  split_ifs <;> simp_all

/-- Any non-jump-platform collision reaches the fall-off-the-edge
`else if`. -/
theorem platformCollisionStep_off (w : World) (cd : CollisionData)
    (h1 : cd.other.id ≠ "jumpPlatform") :
    platformCollisionStep w cd =
      if w.player.movement.down = false then
        { w with player := { w.player with movement.down := true, gravityEnabled := true } }
      else w := by
  unfold platformCollisionStep
  rw [if_neg h1]

/-! ### Behaviour lemmas for the movement step -/

/-- When the jump check fires, `jumpStep` subtracts the difficulty- and
gravity-dependent fraction of `bottom` from `y`. -/
theorem jumpStep_y_fires (w : World)
    (h1 : "w" ∈ w.player.pressedKeys) (h2 : w.player.isIdle = false)
    (h3 : w.player.bottom ≤ w.player.y ∨ w.player.movement.down = false) :
    (jumpStep w).player.y = w.player.y -
      (if w.player.gravityEnabled = true then
        (if w.env.difficulty = "easy" then w.player.bottom * (1/2)
         else if w.env.difficulty = "normal" then w.player.bottom * (2/5)
         else w.player.bottom * (3/10))
       else if w.player.movement.down = false then w.player.bottom * (3/20)
       else 0) := by
  have hguard : (isActiveGravityAnimation w.player "w").1 = true := by
    rcases h3 with h3 | h3 <;> simp [isActiveAnimation, h1, h2, h3]
  unfold jumpStep
  dsimp only
  rw [if_pos hguard]
  split_ifs <;> simp_all

@[simp] theorem updateMoved_innerWidth (w : World) :
    (updateMoved w).env.innerWidth = w.env.innerWidth := by
  simp [updateMoved]

@[simp] theorem updateMoved_y_pre (w : World) :
    (update w).player.y = (updateMoved w).player.y := by
  simp [update]

/-- The per-frame `y` change of the whole step equals the one produced by
the jump trigger (the clamps only touch `x`). -/
theorem update_y_fires (w : World)
    (h1 : "w" ∈ w.player.pressedKeys) (h2 : w.player.isIdle = false)
    (h3 : w.player.bottom ≤ w.player.y ∨ w.player.movement.down = false) :
    (update w).player.y = w.player.y -
      (if w.player.gravityEnabled = true then
        (if w.env.difficulty = "easy" then w.player.bottom * (1/2)
         else if w.env.difficulty = "normal" then w.player.bottom * (2/5)
         else w.player.bottom * (3/10))
       else if w.player.movement.down = false then w.player.bottom * (3/20)
       else 0) := by
  rw [updateMoved_y_pre]
  unfold updateMoved
  dsimp only
  rw [jumpStep_y_fires] <;> simp [h1, h2, h3]

/-- An idle player does not move laterally. -/
theorem lateralStep_idle (p : PlayerState) (h : p.isIdle = true) :
    lateralStep p = p := by
  unfold lateralStep
  simp [isActiveAnimation, h]

/-- The pre-clamp `x` is the one produced by the lateral step. -/
theorem updateMoved_x (w : World) :
    (updateMoved w).player.x = (lateralStep w.player).x := by
  unfold updateMoved
  dsimp only
  rw [jumpStep_x, publishPosition_player]

/-- With the right-action key latched (and left not latched), a lateral
step is exactly one displacement to the right. -/
theorem lateralStep_right_eq (p : PlayerState)
    (ha : "a" ∉ p.pressedKeys) (hd : "d" ∈ p.pressedKeys)
    (hi : p.isIdle = false) (hr : p.movement.right = true) :
    lateralStep p =
      { p with x := p.x + (if "s" ∈ p.pressedKeys then p.moveSpeed else p.speed) } := by
  unfold lateralStep
  dsimp only
  simp [isActiveAnimation, ha, hd, hi, hr]

/-- With the left-action key latched (and right not latched), a lateral
step is exactly one displacement to the left. -/
theorem lateralStep_left_eq (p : PlayerState)
    (hd : "d" ∉ p.pressedKeys) (ha : "a" ∈ p.pressedKeys)
    (hi : p.isIdle = false) (hl : p.movement.left = true) :
    lateralStep p =
      { p with x := p.x - (if "s" ∈ p.pressedKeys then p.moveSpeed else p.speed) } := by
  unfold lateralStep
  dsimp only
  simp [isActiveAnimation, ha, hd, hi, hl]

/-- Iterated rightward frames displace by `n` single-frame deltas. -/
theorem lateralStep_iter_right (p : PlayerState)
    (ha : "a" ∉ p.pressedKeys) (hd : "d" ∈ p.pressedKeys)
    (hi : p.isIdle = false) (hr : p.movement.right = true) (n : Nat) :
    lateralStep^[n] p =
      { p with x := p.x + n * (if "s" ∈ p.pressedKeys then p.moveSpeed else p.speed) } := by
  induction n with
  | zero => simp
  | succ k ih =>
    rw [Function.iterate_succ_apply', ih, lateralStep_right_eq]
    · simp only [PlayerState.mk.injEq, and_true, true_and, eq_self_iff_true]
      push_cast
      ring
    · exact ha
    · exact hd
    · exact hi
    · exact hr

/-- Iterated leftward frames displace by `n` single-frame deltas. -/
theorem lateralStep_iter_left (p : PlayerState)
    (hd : "d" ∉ p.pressedKeys) (ha : "a" ∈ p.pressedKeys)
    (hi : p.isIdle = false) (hl : p.movement.left = true) (n : Nat) :
    lateralStep^[n] p =
      { p with x := p.x - n * (if "s" ∈ p.pressedKeys then p.moveSpeed else p.speed) } := by
  induction n with
  | zero => simp
  | succ k ih =>
    rw [Function.iterate_succ_apply', ih, lateralStep_left_eq]
    · simp only [PlayerState.mk.injEq, and_true, true_and, eq_self_iff_true]
      push_cast
      ring
    · exact hd
    · exact ha
    · exact hi
    · exact hl

/-! ### Behaviour lemmas for the key handlers -/

@[simp] theorem handleKeyDown_moveSpeed (w : World) (key : String) :
    (handleKeyDown w key).player.moveSpeed = w.player.moveSpeed := by
  unfold handleKeyDown
  split
  · rfl
  · dsimp only
    split_ifs <;> simp

@[simp] theorem handleKeyUp_moveSpeed (w : World) (key : String) :
    (handleKeyUp w key).player.moveSpeed = w.player.moveSpeed := by
  unfold handleKeyUp
  split
  · rfl
  · dsimp only
    split_ifs <;> simp

/-- The parallax hill speed written by a recognized key press. -/
theorem handleKeyDown_hills (w : World) (key : String)
    (hs : (w.player.playerData.lookup key).isSome = true) :
    (handleKeyDown w key).env.backgroundHillsSpeed =
      (if isKeyActionLeft key = true ∧ 2 < w.player.x then -(2/5)
       else if isKeyActionRight key = true then 2/5
       else w.env.backgroundHillsSpeed) := by
  unfold handleKeyDown
  rcases hl : w.player.playerData.lookup key with _ | anim
  · rw [hl] at hs
    simp at hs
  · dsimp only
    split_ifs <;> simp_all

/-- The parallax mountain speed written by a recognized key press. -/
theorem handleKeyDown_mountains (w : World) (key : String)
    (hs : (w.player.playerData.lookup key).isSome = true) :
    (handleKeyDown w key).env.backgroundMountainsSpeed =
      (if isKeyActionLeft key = true ∧ 2 < w.player.x then -(1/10)
       else if isKeyActionRight key = true then 1/10
       else w.env.backgroundMountainsSpeed) := by
  unfold handleKeyDown
  rcases hl : w.player.playerData.lookup key with _ | anim
  · rw [hl] at hs
    simp at hs
  · dsimp only
    split_ifs <;> simp_all

/-- The parallax hill speed written by a recognized key release. -/
theorem handleKeyUp_hills (w : World) (key : String)
    (hs : (w.player.playerData.lookup key).isSome = true) :
    (handleKeyUp w key).env.backgroundHillsSpeed =
      (if isKeyActionLeft key = true ∨ isKeyActionRight key = true ∨
          isKeyActionDash key = true then 0
       else w.env.backgroundHillsSpeed) := by
  unfold handleKeyUp
  rcases hl : w.player.playerData.lookup key with _ | anim
  · rw [hl] at hs
    simp at hs
  · dsimp only
    split_ifs <;> simp_all

/-- The parallax mountain speed written by a recognized key release. -/
theorem handleKeyUp_mountains (w : World) (key : String)
    (hs : (w.player.playerData.lookup key).isSome = true) :
    (handleKeyUp w key).env.backgroundMountainsSpeed =
      (if isKeyActionLeft key = true ∨ isKeyActionRight key = true ∨
          isKeyActionDash key = true then 0
       else w.env.backgroundMountainsSpeed) := by
  unfold handleKeyUp
  rcases hl : w.player.playerData.lookup key with _ | anim
  · rw [hl] at hs
    simp at hs
  · dsimp only
    split_ifs <;> simp_all

/-! ### The death-sequence potential -/

theorem tubeCollisionStep_potential (w : World) (cd : CollisionData) :
    restartPotential (tubeCollisionStep w cd) = restartPotential w := by
  unfold restartPotential
  simp

theorem platformCollisionStep_potential (w : World) (cd : CollisionData) :
    restartPotential (platformCollisionStep w cd) = restartPotential w := by
  unfold restartPotential
  simp

theorem enemyCollisionStep_potential (w : World) (cd : CollisionData) :
    restartPotential (enemyCollisionStep w cd) = restartPotential w := by
  unfold restartPotential enemyCollisionStep
  dsimp only
  split_ifs <;> simp_all

/-- `collisionAction` preserves the death-sequence potential exactly. -/
theorem collisionAction_potential (w : World) (cd : CollisionData) :
    restartPotential (collisionAction w cd) = restartPotential w := by
  unfold collisionAction
  rw [platformCollisionStep_potential, enemyCollisionStep_potential,
    tubeCollisionStep_potential]

theorem foldl_collisionAction_potential (cds : List CollisionData) (w : World) :
    restartPotential (cds.foldl collisionAction w) = restartPotential w := by
  induction cds generalizing w with
  | nil => rfl
  | cons c cs ih => rw [List.foldl_cons, ih, collisionAction_potential]

/-- `collisionAction` never clears `isDying`. -/
theorem collisionAction_isDying_mono (w : World) (cd : CollisionData)
    (h : w.player.isDying = true) :
    (collisionAction w cd).player.isDying = true := by
  unfold collisionAction
  rw [platformCollisionStep_isDying]
  exact enemyCollisionStep_isDying_mono _ cd (by simp [h])

/-- The lethal branch's guard is the assignment `GameEnv.invincible = true`:
evaluating it stores `true`. -/
theorem enemyCollisionStep_lethal_invincible (w : World) (cd : CollisionData)
    (h1 : cd.other.id = "goomba" ∨ cd.other.id = "flyingGoomba")
    (h2 : w.env.difficulty ≠ "easy") :
    (enemyCollisionStep w cd).env.invincible = true := by
  unfold enemyCollisionStep
  rw [if_pos h1]
  dsimp only
  rw [if_neg h2]
  split_ifs <;> rfl

/-! ## Claim theorems -/

/-- C1: while `isDying` is true a further lethal enemy contact schedules no
additional restart; over any sequence of collisions at most one restart
beyond those already scheduled can be added (none when a death sequence is
in flight); and `isDying` is cleared only by a death-timer event in which
the awaited level transition completes. -/
theorem death_sequence_idempotence :
    (∀ (w : World) (cd : CollisionData),
      (cd.other.id = "goomba" ∨ cd.other.id = "flyingGoomba") →
      w.env.difficulty ≠ "easy" → w.player.isDying = true →
      (collisionAction w cd).scheduledRestarts = w.scheduledRestarts) ∧
    (∀ (w : World) (cds : List CollisionData),
      (cds.foldl collisionAction w).scheduledRestarts ≤
        w.scheduledRestarts + (if w.player.isDying = true then 0 else 1)) ∧
    (∀ (w : World) (ev : Event),
      w.player.isDying = true → (stepEvent w ev).player.isDying = false →
      ev = Event.deathTimerComplete ∧
      (stepEvent w ev).completedTransitions = w.completedTransitions + 1) := by
  refine ⟨?_, ?_, ?_⟩
  · intro w cd _ _ h3
    have hpot := collisionAction_potential w cd
    have hmono := collisionAction_isDying_mono w cd h3
    unfold restartPotential at hpot
    rw [h3, hmono] at hpot
    simpa using hpot
  · intro w cds
    have hpot := foldl_collisionAction_potential cds w
    unfold restartPotential at hpot
    calc (cds.foldl collisionAction w).scheduledRestarts
        ≤ (cds.foldl collisionAction w).scheduledRestarts +
            (if (cds.foldl collisionAction w).player.isDying = true then 0 else 1) :=
          Nat.le_add_right _ _
      _ = _ := hpot
  · intro w ev h1 h2
    cases ev with
    | collide cd =>
      simp only [stepEvent] at h2
      rw [collisionAction_isDying_mono w cd h1] at h2
      exact absurd h2 (by simp)
    | deathTimerComplete =>
      refine ⟨rfl, ?_⟩
      unfold stepEvent at h2 ⊢
      split_ifs at h2 ⊢
      · rfl
      · simp [h1] at h2

/-- Witness for C1 at a mid-death-sequence state and a goomba contact. -/
theorem death_sequence_idempotence_witness :
    (collisionAction dyingWorld goombaCd).scheduledRestarts =
      dyingWorld.scheduledRestarts ∧
    (Event.deathTimerComplete = Event.deathTimerComplete ∧
      (stepEvent dyingWorld Event.deathTimerComplete).completedTransitions =
        dyingWorld.completedTransitions + 1) :=
  ⟨death_sequence_idempotence.1 dyingWorld goombaCd (Or.inl rfl) (by decide)
      (by decide),
   death_sequence_idempotence.2.2 dyingWorld Event.deathTimerComplete (by decide)
      (by decide)⟩

/-- C2: when the jump check fires (up key latched, not idle, grounded or
platform-constrained) with gravity enabled, `y` decreases by exactly
0.50·bottom on easy, 0.40·bottom on normal and 0.30·bottom on hard; with
gravity disabled and `movement.down == false` it decreases by 0.15·bottom;
for positive `bottom` the three magnitudes are strictly ordered
easy > normal > hard. -/
theorem jump_height_ratios (w : World)
    (h1 : "w" ∈ w.player.pressedKeys) (h2 : w.player.isIdle = false)
    (h3 : w.player.bottom ≤ w.player.y ∨ w.player.movement.down = false) :
    (w.player.gravityEnabled = true →
      (w.env.difficulty = "easy" →
        (update w).player.y = w.player.y - w.player.bottom * (1/2)) ∧
      (w.env.difficulty = "normal" →
        (update w).player.y = w.player.y - w.player.bottom * (2/5)) ∧
      (w.env.difficulty = "hard" →
        (update w).player.y = w.player.y - w.player.bottom * (3/10))) ∧
    (w.player.gravityEnabled = false → w.player.movement.down = false →
      (update w).player.y = w.player.y - w.player.bottom * (3/20)) ∧
    (0 < w.player.bottom →
      w.player.bottom * (2/5) < w.player.bottom * (1/2) ∧
      w.player.bottom * (3/10) < w.player.bottom * (2/5)) := by
  have hy := update_y_fires w h1 h2 h3
  refine ⟨fun hg => ⟨fun hd => ?_, fun hd => ?_, fun hd => ?_⟩,
    fun hg hd => ?_, fun hb => ?_⟩
  · rw [hy]; simp [hg, hd]
  · rw [hy]; simp [hg, hd]
  · rw [hy]; simp [hg, hd]
  · rw [hy]; simp [hg, hd]
  · exact ⟨mul_lt_mul_of_pos_left (by norm_num) hb,
      mul_lt_mul_of_pos_left (by norm_num) hb⟩

/-- Witness for C2: grounded jump on easy difficulty from `y = 50`,
`bottom = 40` lands at `y = 30`. -/
theorem jump_height_ratios_witness :
    (update jumpWorld).player.y =
      jumpWorld.player.y - jumpWorld.player.bottom * (1/2) ∧
    (update jumpWorld).player.y = 30 := by
  have h := ((jump_height_ratios jumpWorld (by decide) (by decide)
      (Or.inl (by decide))).1 (by decide)).1 (by decide)
  refine ⟨h, ?_⟩
  rw [h]
  show (50 : ℚ) - 40 * (1/2) = 30
  norm_num

/-- C3: `moveSpeed` is `speed * 3` at construction and no operation of the
controller changes it; over any number of frames, lateral displacement
with the dash key latched is exactly three times the displacement without
it, in either direction. -/
theorem dash_triple_displacement :
    (∀ (env : GameEnvState) (data : PlayerData) (x y speed bottom ch : ℚ)
      (g : Bool),
      (constructPlayer env data x y speed bottom ch g).player.moveSpeed =
        speed * 3) ∧
    (∀ w : World, (update w).player.moveSpeed = w.player.moveSpeed) ∧
    (∀ (w : World) (cd : CollisionData),
      (collisionAction w cd).player.moveSpeed = w.player.moveSpeed) ∧
    (∀ (w : World) (key : String),
      (handleKeyDown w key).player.moveSpeed = w.player.moveSpeed) ∧
    (∀ (w : World) (key : String),
      (handleKeyUp w key).player.moveSpeed = w.player.moveSpeed) ∧
    (∀ (p q : PlayerState) (n : Nat),
      "a" ∉ p.pressedKeys → "d" ∈ p.pressedKeys → p.isIdle = false →
      p.movement.right = true → "s" ∈ p.pressedKeys →
      "a" ∉ q.pressedKeys → "d" ∈ q.pressedKeys → q.isIdle = false →
      q.movement.right = true → "s" ∉ q.pressedKeys →
      q.speed = p.speed → p.moveSpeed = p.speed * 3 →
      (lateralStep^[n] p).x - p.x = 3 * ((lateralStep^[n] q).x - q.x)) ∧
    (∀ (p q : PlayerState) (n : Nat),
      "d" ∉ p.pressedKeys → "a" ∈ p.pressedKeys → p.isIdle = false →
      p.movement.left = true → "s" ∈ p.pressedKeys →
      "d" ∉ q.pressedKeys → "a" ∈ q.pressedKeys → q.isIdle = false →
      q.movement.left = true → "s" ∉ q.pressedKeys →
      q.speed = p.speed → p.moveSpeed = p.speed * 3 →
      (lateralStep^[n] p).x - p.x = 3 * ((lateralStep^[n] q).x - q.x)) := by
  refine ⟨fun _ _ _ _ _ _ _ _ => rfl, fun w => by simp [update, updateMoved],
    fun w cd => by simp [collisionAction],
    fun w k => handleKeyDown_moveSpeed w k,
    fun w k => handleKeyUp_moveSpeed w k, ?_, ?_⟩
  · intro p q n ha hd hi hr hs ha' hd' hi' hr' hs' hspeed hms
    rw [lateralStep_iter_right p ha hd hi hr n,
      lateralStep_iter_right q ha' hd' hi' hr' n]
    dsimp only
    rw [if_pos hs, if_neg hs', hms, hspeed]
    ring
  · intro p q n hd ha hi hl hs hd' ha' hi' hl' hs' hspeed hms
    rw [lateralStep_iter_left p hd ha hi hl n,
      lateralStep_iter_left q hd' ha' hi' hl' n]
    dsimp only
    rw [if_pos hs, if_neg hs', hms, hspeed]
    ring

/-- Witness for C3: four dash frames move `4 × 9 = 36`, three times the
four plain frames `4 × 3 = 12`. -/
theorem dash_triple_displacement_witness :
    (lateralStep^[4] dashPlayer).x - dashPlayer.x =
      3 * ((lateralStep^[4] walkPlayer).x - walkPlayer.x) :=
  dash_triple_displacement.2.2.2.2.2.1 dashPlayer walkPlayer 4 (by decide)
    (by decide) (by decide) (by decide) (by decide) (by decide) (by decide)
    (by decide) (by decide) (by decide) rfl rfl

/-- C4 counterexample: on a 1-pixel-wide screen with the player at
`x = 0.9 ∈ [0.8, 1]`, the tube clamp writes `0.8·width − 1 = −0.2`, and
the subsequent left-edge clamp overrides the final `x` to `1`. -/
theorem tube_clamp_counterexample :
    ((4/5 : ℚ) * tinyWorld.env.innerWidth ≤ (updateMoved tinyWorld).player.x ∧
      (updateMoved tinyWorld).player.x ≤ tinyWorld.env.innerWidth) ∧
    (update tinyWorld).player.x ≠ (4/5 : ℚ) * tinyWorld.env.innerWidth - 1 := by
  have hx : (updateMoved tinyWorld).player.x = tinyWorld.player.x := by
    rw [updateMoved_x, lateralStep_idle tinyWorld.player (by decide)]
  have hu : (update tinyWorld).player.x = 1 := by
    unfold update tubeClampStep
    dsimp only
    rw [if_pos (show (4/5 : ℚ) * (updateMoved tinyWorld).env.innerWidth ≤
          (updateMoved tinyWorld).player.x ∧
        (updateMoved tinyWorld).player.x ≤ (updateMoved tinyWorld).env.innerWidth by
      rw [updateMoved_innerWidth, hx]
      show (4/5 : ℚ) * 1 ≤ 9/10 ∧ (9/10 : ℚ) ≤ 1
      norm_num)]
    unfold leftClampStep
    rw [if_pos]
    show (4/5 : ℚ) * (updateMoved tinyWorld).env.innerWidth - 1 < 0
    rw [updateMoved_innerWidth]
    show (4/5 : ℚ) * 1 - 1 < 0
    norm_num
  refine ⟨⟨?_, ?_⟩, ?_⟩
  · rw [hx]
    show (4/5 : ℚ) * 1 ≤ 9/10
    norm_num
  · rw [hx]
    show (9/10 : ℚ) ≤ 1
    norm_num
  · rw [hu]
    show (1 : ℚ) ≠ 4/5 * 1 - 1
    norm_num

/-- C4 amended: if after lateral movement and jumping `x` lies in
`[0.8·width, width]` and the clamp target `0.8·width − 1` is nonnegative
(equivalently `1 ≤ 0.8·width`, true for any real screen), the step ends
with `x = 0.8·width − 1`. -/
theorem tube_clamp_amended (w : World)
    (h1 : (4/5 : ℚ) * w.env.innerWidth ≤ (updateMoved w).player.x)
    (h2 : (updateMoved w).player.x ≤ w.env.innerWidth)
    (h3 : 1 ≤ (4/5 : ℚ) * w.env.innerWidth) :
    (update w).player.x = (4/5 : ℚ) * w.env.innerWidth - 1 := by
  unfold update
  have hcond : (4/5 : ℚ) * (updateMoved w).env.innerWidth ≤
      (updateMoved w).player.x ∧
      (updateMoved w).player.x ≤ (updateMoved w).env.innerWidth := by
    rw [updateMoved_innerWidth]
    exact ⟨h1, h2⟩
  unfold tubeClampStep
  dsimp only
  rw [if_pos hcond]
  unfold leftClampStep
  rw [if_neg]
  · dsimp only
    rw [updateMoved_innerWidth]
  · dsimp only
    rw [updateMoved_innerWidth]
    linarith

/-- Witness for C4 (amended): width 1000, `x = 850` clamps to `799`. -/
theorem tube_clamp_amended_witness :
    (update clampWorld).player.x = (4/5 : ℚ) * clampWorld.env.innerWidth - 1 ∧
    (update clampWorld).player.x = 799 := by
  have hx : (updateMoved clampWorld).player.x = clampWorld.player.x := by
    rw [updateMoved_x, lateralStep_idle clampWorld.player (by decide)]
  have h : (update clampWorld).player.x =
      (4/5 : ℚ) * clampWorld.env.innerWidth - 1 := by
    apply tube_clamp_amended clampWorld
    · rw [hx]
      show (4/5 : ℚ) * 1000 ≤ 850
      norm_num
    · rw [hx]
      show (850 : ℚ) ≤ 1000
      norm_num
    · show (1 : ℚ) ≤ 4/5 * 1000
      norm_num
  refine ⟨h, ?_⟩
  rw [h]
  show (4/5 : ℚ) * 1000 - 1 = 799
  norm_num

/-- C5: a jumpPlatform collision touching the player's own top face leaves
`movement.down = false` and gravity disabled; any later collision event
matching none of the jump-platform conditions (its id is not
"jumpPlatform") while `movement.down` is false restores
`movement.down = true` and re-enables gravity. -/
theorem jump_platform_one_way :
    (∀ (w : World) (cd : CollisionData),
      cd.other.id = "jumpPlatform" → cd.self.top = true →
      (collisionAction w cd).player.movement.down = false ∧
      (collisionAction w cd).player.gravityEnabled = false) ∧
    (∀ (w : World) (cd : CollisionData),
      cd.other.id ≠ "jumpPlatform" → w.player.movement.down = false →
      (collisionAction w cd).player.movement.down = true ∧
      (collisionAction w cd).player.gravityEnabled = true) := by
  constructor
  · intro w cd h1 h2
    unfold collisionAction
    exact platformCollisionStep_top _ cd h1 h2
  · intro w cd h1 h2
    unfold collisionAction
    rw [platformCollisionStep_off _ cd h1]
    rw [if_pos (show (enemyCollisionStep (tubeCollisionStep w cd) cd).player.movement.down
        = false by simp [h2])]
    exact ⟨rfl, rfl⟩

/-- Witness for C5: standing on top of a platform, then a non-platform
collision while `movement.down` is false. -/
theorem jump_platform_one_way_witness :
    ((collisionAction baseWorld platformTopCd).player.movement.down = false ∧
      (collisionAction baseWorld platformTopCd).player.gravityEnabled = false) ∧
    ((collisionAction platformWorld floorCd).player.movement.down = true ∧
      (collisionAction platformWorld floorCd).player.gravityEnabled = true) :=
  ⟨jump_platform_one_way.1 baseWorld platformTopCd rfl rfl,
   jump_platform_one_way.2 platformWorld floorCd (by decide) (by decide)⟩

/-- C6 counterexample: pressing the recognized left-action key with the
player at `x = 1 ≤ 2` leaves both parallax speeds unchanged (at 0), not
set to the direction-scaled constants the claim asserts. -/
theorem parallax_press_counterexample :
    (leftEdgeWorld.player.playerData.lookup "a").isSome = true ∧
    isKeyActionLeft "a" = true ∧
    (handleKeyDown leftEdgeWorld "a").env.backgroundHillsSpeed = 0 ∧
    (handleKeyDown leftEdgeWorld "a").env.backgroundHillsSpeed ≠ -(2/5) := by
  have h := handleKeyDown_hills leftEdgeWorld "a" (by decide)
  rw [if_neg (show ¬(isKeyActionLeft "a" = true ∧ 2 < leftEdgeWorld.player.x) by
      rintro ⟨-, hx⟩
      have hx1 : (2 : ℚ) < 1 := hx
      norm_num at hx1),
    if_neg (show ¬(isKeyActionRight "a" = true) by decide)] at h
  refine ⟨by decide, by decide, h, ?_⟩
  rw [h]
  show (0 : ℚ) ≠ -(2/5)
  norm_num

/-- C6 amended: a left-action press sets hills −0.4 / mountains −0.1 only
when the player's `x` exceeds 2; a right-action press always sets hills
0.4 / mountains 0.1; releasing left, right or dash resets both speeds
to 0. -/
theorem parallax_key_control :
    (∀ (w : World) (key : String),
      (w.player.playerData.lookup key).isSome = true →
      isKeyActionLeft key = true → 2 < w.player.x →
      (handleKeyDown w key).env.backgroundHillsSpeed = -(2/5) ∧
      (handleKeyDown w key).env.backgroundMountainsSpeed = -(1/10)) ∧
    (∀ (w : World) (key : String),
      (w.player.playerData.lookup key).isSome = true →
      isKeyActionRight key = true →
      (handleKeyDown w key).env.backgroundHillsSpeed = 2/5 ∧
      (handleKeyDown w key).env.backgroundMountainsSpeed = 1/10) ∧
    (∀ (w : World) (key : String),
      (w.player.playerData.lookup key).isSome = true →
      (isKeyActionLeft key = true ∨ isKeyActionRight key = true ∨
        isKeyActionDash key = true) →
      (handleKeyUp w key).env.backgroundHillsSpeed = 0 ∧
      (handleKeyUp w key).env.backgroundMountainsSpeed = 0) := by
  refine ⟨?_, ?_, ?_⟩
  · intro w key hs hleft hx
    rw [handleKeyDown_hills w key hs, handleKeyDown_mountains w key hs,
      if_pos ⟨hleft, hx⟩, if_pos ⟨hleft, hx⟩]
    exact ⟨rfl, rfl⟩
  · intro w key hs hright
    have hk : key = "d" := by simpa [isKeyActionRight] using hright
    have hnl : ¬(isKeyActionLeft key = true ∧ 2 < w.player.x) := by
      rw [hk]
      simp [isKeyActionLeft]
    rw [handleKeyDown_hills w key hs, handleKeyDown_mountains w key hs,
      if_neg hnl, if_neg hnl, if_pos hright, if_pos hright]
    exact ⟨rfl, rfl⟩
  · intro w key hs hor
    rw [handleKeyUp_hills w key hs, handleKeyUp_mountains w key hs,
      if_pos hor, if_pos hor]
    exact ⟨rfl, rfl⟩

/-- Witness for C6 (amended): pressing then releasing the right-action key
at width 1000 sets the hill speed to 0.4 and back to 0. -/
theorem parallax_key_control_witness :
    ((handleKeyDown baseWorld "d").env.backgroundHillsSpeed = 2/5 ∧
      (handleKeyDown baseWorld "d").env.backgroundMountainsSpeed = 1/10) ∧
    ((handleKeyUp baseWorld "d").env.backgroundHillsSpeed = 0 ∧
      (handleKeyUp baseWorld "d").env.backgroundMountainsSpeed = 0) :=
  ⟨parallax_key_control.2.1 baseWorld "d" (by decide) (by decide),
   parallax_key_control.2.2 baseWorld "d" (by decide)
     (Or.inr (Or.inl (by decide)))⟩

/-- C7: a key with no entry in the animation-descriptor table leaves the
whole state (player and environment) unchanged on both key-down and
key-up. -/
theorem unrecognized_key_no_effect (w : World) (key : String)
    (h : w.player.playerData.lookup key = none) :
    handleKeyDown w key = w ∧ handleKeyUp w key = w := by
  constructor
  · unfold handleKeyDown
    rw [h]
  · unfold handleKeyUp
    rw [h]

/-- Witness for C7 at the unrecognized key `"z"`. -/
theorem unrecognized_key_no_effect_witness :
    handleKeyDown baseWorld "z" = baseWorld ∧
    handleKeyUp baseWorld "z" = baseWorld :=
  unrecognized_key_no_effect baseWorld "z" (by decide)

/-- C8: on non-easy difficulty an enemy collision always takes the lethal
branch (the guard is an assignment, hence truthy) regardless of the prior
invincibility value: death-spin transform, death sound, and — exactly when
`isDying` was false — one scheduled restart. -/
theorem lethal_branch_always (w : World) (cd : CollisionData)
    (h1 : cd.other.id = "goomba" ∨ cd.other.id = "flyingGoomba")
    (h2 : w.env.difficulty ≠ "easy") :
    (collisionAction w cd).player.canvasTransform =
      some (90 * (if cd.other.left then (-1 : ℚ) else 1),
        w.player.canvasHeight * (1/2) * (if cd.other.left then (-1 : ℚ) else 1)) ∧
    (collisionAction w cd).deathSounds = w.deathSounds + 1 ∧
    (w.player.isDying = false →
      (collisionAction w cd).scheduledRestarts = w.scheduledRestarts + 1 ∧
      (collisionAction w cd).player.isDying = true) ∧
    (w.player.isDying = true →
      (collisionAction w cd).scheduledRestarts = w.scheduledRestarts ∧
      (collisionAction w cd).player.isDying = true) := by
  unfold collisionAction
  have h2' : (tubeCollisionStep w cd).env.difficulty ≠ "easy" := by
    rw [tubeCollisionStep_difficulty]
    exact h2
  cases hd : w.player.isDying with
  | false =>
    have hd' : (tubeCollisionStep w cd).player.isDying = false := by simp [hd]
    rw [enemyCollisionStep_lethal_fresh _ cd h1 h2' hd']
    refine ⟨by simp, by simp, fun _ => ⟨by simp, by simp⟩, fun hcon => ?_⟩
    cases hcon
  | true =>
    have hd' : (tubeCollisionStep w cd).player.isDying = true := by simp [hd]
    rw [enemyCollisionStep_lethal_dying _ cd h1 h2' hd']
    refine ⟨by simp, by simp, fun hcon => ?_, fun _ => ⟨by simp, by simp [hd]⟩⟩
    cases hcon

/-- Witness for C8 on normal difficulty with a fresh (not dying) player. -/
theorem lethal_branch_always_witness :
    (collisionAction baseWorld goombaCd).player.canvasTransform =
      some (90 * (if goombaCd.other.left then (-1 : ℚ) else 1),
        baseWorld.player.canvasHeight * (1/2) *
          (if goombaCd.other.left then (-1 : ℚ) else 1)) ∧
    (collisionAction baseWorld goombaCd).deathSounds =
      baseWorld.deathSounds + 1 :=
  ⟨(lethal_branch_always baseWorld goombaCd (Or.inl rfl) (by decide)).1,
   (lethal_branch_always baseWorld goombaCd (Or.inl rfl) (by decide)).2.1⟩

/-- C9: on easy difficulty an enemy collision nudges `x` by exactly
`10 × direction` (`direction = −1` when the enemy's left face is touched,
else `+1`) and leaves `isDying` unchanged. -/
theorem easy_enemy_nudge (w : World) (cd : CollisionData)
    (h1 : cd.other.id = "goomba" ∨ cd.other.id = "flyingGoomba")
    (h2 : w.env.difficulty = "easy") :
    (collisionAction w cd).player.x =
      w.player.x + 10 * (if cd.other.left then (-1 : ℚ) else 1) ∧
    (collisionAction w cd).player.isDying = w.player.isDying := by
  unfold collisionAction
  have ht : cd.other.id ≠ "tube" := by rcases h1 with h | h <;> simp [h]
  have htx : (tubeCollisionStep w cd).player.x = w.player.x := by
    rw [tubeCollisionStep_not_tube w cd ht]
  rw [enemyCollisionStep_easy (tubeCollisionStep w cd) cd h1
    (by rw [tubeCollisionStep_difficulty]; exact h2)]
  exact ⟨by simp [htx], by simp⟩

/-- Witness for C9: from `x = 100`, width 1000, contact not on the enemy's
left face, `x` becomes `110` and `isDying` stays false. -/
theorem easy_enemy_nudge_witness :
    (collisionAction easyWorld goombaCd).player.x = 110 ∧
    (collisionAction easyWorld goombaCd).player.isDying = false := by
  have h := easy_enemy_nudge easyWorld goombaCd (Or.inl rfl) (by decide)
  refine ⟨?_, ?_⟩
  · rw [h.1]
    show (100 : ℚ) + 10 * 1 = 110
    norm_num
  · rw [h.2]
    decide

/-- C10: construction stores `false` into the environment's invincibility
flag, and every non-easy enemy collision stores `true` into it as a side
effect of the assignment used as the branch condition. -/
theorem invincible_flag_mutation :
    (∀ (env : GameEnvState) (data : PlayerData) (x y speed bottom ch : ℚ)
      (g : Bool),
      (constructPlayer env data x y speed bottom ch g).env.invincible = false) ∧
    (∀ (w : World) (cd : CollisionData),
      (cd.other.id = "goomba" ∨ cd.other.id = "flyingGoomba") →
      w.env.difficulty ≠ "easy" →
      (collisionAction w cd).env.invincible = true) := by
  constructor
  · intro env data x y speed bottom ch g
    rfl
  · intro w cd h1 h2
    unfold collisionAction
    rw [platformCollisionStep_env]
    refine enemyCollisionStep_lethal_invincible _ cd h1 ?_
    rw [tubeCollisionStep_difficulty]
    exact h2

/-- Witness for C10: the sample construction and a goomba hit on normal
difficulty. -/
theorem invincible_flag_mutation_witness :
    (constructPlayer sampleEnv sampleData 100 50 3 40 200 true).env.invincible
      = false ∧
    (collisionAction baseWorld goombaCd).env.invincible = true :=
  ⟨invincible_flag_mutation.1 sampleEnv sampleData 100 50 3 40 200 true,
   invincible_flag_mutation.2 baseWorld goombaCd (Or.inl rfl) (by decide)⟩

end Platformer
